import Mathlib

/-!
Shallow embedding of the `NextjsSite` construct from `src/open-next.ts`
(cdk-opennext). The construct reads an OpenNext build manifest
(`open-next.output.json`), validates the custom-domain configuration,
creates storage/table/queue resources, resolves the manifest origins to
CloudFront origins, optionally creates a CloudFront distribution from the
manifest behaviors, and optionally creates warming resources.

External collaborators (the AWS CDK resource classes, the node `crypto`
module, the filesystem) are modelled as descriptors and parameters: a
created resource becomes a `Resource` tag carrying the construct-chosen
parameters, the SHA-256 hash from `crypto.createHash` is a `String → String`
parameter, and CloudFormation-time values (bucket name, queue URL, region,
the generated distribution domain name) are fields of a `CloudContext`.
-/

/-- JavaScript-object association list lookup: later bindings shadow earlier
ones, mirroring object literal spread/assignment semantics where the last
assignment to a key wins. -/
def objGet {α : Type} (m : List (String × α)) (k : String) : Option α :=
  m.foldl (fun acc kv => if kv.1 = k then some kv.2 else acc) none

deriving instance DecidableEq for Except

/-- Entry of `additionalProps` in `open-next.output.json`: a handler name and
a bundle directory (`BaseFunction` in `open-next.ts`). -/
structure BaseFunction where
  handler : String
  bundle : String
deriving DecidableEq

/-- An `OpenNextFunctionOrigin` manifest entry: `type: "function"` plus the
optional `streaming` flag. -/
structure FunctionOriginSpec where
  handler : String
  bundle : String
  streaming : Option Bool
deriving DecidableEq

/-- One entry of the `copy` array of the s3 origin. -/
structure CopyRule where
  srcDir : String
  destKey : String
  cached : Bool
deriving DecidableEq

/-- An `OpenNextS3Origin` manifest entry. -/
structure S3OriginSpec where
  originPath : String
  copy : List CopyRule
deriving DecidableEq

/-- A manifest origin other than the three required keys: the tagged union
`OpenNextOrigins` (`type: "function"` or `type: "s3"`). -/
inductive ExtraOriginSpec where
  | functionOrigin (f : FunctionOriginSpec)
  | s3Origin (s : S3OriginSpec)
deriving DecidableEq

/-- A manifest behavior: `pattern` plus optional `origin` name. The `origin`
field is a JavaScript string-or-undefined; `none` models `undefined`. -/
structure Behavior where
  pattern : String
  origin : Option String
deriving DecidableEq

/-- The `additionalProps` bag of the manifest. -/
structure AdditionalProps where
  initializationFunction : Option BaseFunction
  warmer : Option BaseFunction
  revalidationFunction : Option BaseFunction
deriving DecidableEq

/-- The parsed `open-next.output.json` (`OpenNextOutput` in `open-next.ts`).
The three required origin keys are separate fields (`defaultOrigin` models
the `default` key); `restOrigins` models the remaining keys in insertion
order. -/
structure OpenNextOutput where
  s3 : S3OriginSpec
  defaultOrigin : FunctionOriginSpec
  imageOptimizer : FunctionOriginSpec
  restOrigins : List (String × ExtraOriginSpec)
  behaviors : List Behavior
  additionalProps : Option AdditionalProps
deriving DecidableEq

/-- The `customDomain` prop (`DistributionDomainProps`): certificate and
hosted zone are external object references, modelled by identifier strings. -/
structure DistributionDomainProps where
  domainName : String
  hostedZone : Option String
  certificate : Option String
deriving DecidableEq

/-- The warming setting `warm?: number | false`: `omitted` models
`undefined`, `disabled` models `false`. -/
inductive WarmSetting where
  | omitted
  | disabled
  | concurrency (n : Int)
deriving DecidableEq

/-- The caller override bag `defaultFunctionProps` (the fields of
`FunctionOptions` the construct reads). The `environment` field is a
JavaScript object, modelled as an association list (later bindings win). -/
structure DefaultFunctionProps where
  runtime : Option String
  architecture : Option String
  memorySize : Option Nat
  timeoutSeconds : Option Nat
  loggingFormat : Option String
  logGroup : Option String
  environment : List (String × String)
deriving DecidableEq

/-- The construction-time configuration surface `NextjsSiteProps`. -/
structure NextjsSiteProps where
  customDomain : Option DistributionDomainProps
  openNextPath : Option String
  defaultFunctionProps : Option DefaultFunctionProps
  logGroup : Option String
  warm : WarmSetting
  warmerIntervalMinutes : Option Nat
  prewarmOnDeploy : Option Bool
  warmerLogGroup : Option String
  createDistribution : Option Bool
deriving DecidableEq

/-- Deploy-time values chosen by the platform, read by the construct:
`bucket.bucketName`, `Stack.of(this).region`, `queue.queueUrl`,
`table.tableName` and the generated `distribution.distributionDomainName`. -/
structure CloudContext where
  bucketName : String
  region : String
  queueUrl : String
  tableName : String
  distributionDomainName : String
deriving DecidableEq

/-- The `getServerEnvironment` method: the six server-role variables. -/
def getServerEnvironment (ctx : CloudContext) : List (String × String) :=
  [("CACHE_BUCKET_NAME", ctx.bucketName),
   ("CACHE_BUCKET_KEY_PREFIX", "_cache"),
   ("CACHE_BUCKET_REGION", ctx.region),
   ("REVALIDATION_QUEUE_URL", ctx.queueUrl),
   ("REVALIDATION_QUEUE_REGION", ctx.region),
   ("CACHE_DYNAMO_TABLE", ctx.tableName)]

/-- The `getImageOptimizerEnvironment` method: the two image-optimizer
variables. -/
def getImageOptimizerEnvironment (ctx : CloudContext) : List (String × String) :=
  [("BUCKET_NAME", ctx.bucketName),
   ("BUCKET_KEY_PREFIX", "_assets")]

/-- The key set of `getServerEnvironment`. -/
def serverEnvKeys : List String :=
  ["CACHE_BUCKET_NAME", "CACHE_BUCKET_KEY_PREFIX", "CACHE_BUCKET_REGION",
   "REVALIDATION_QUEUE_URL", "REVALIDATION_QUEUE_REGION", "CACHE_DYNAMO_TABLE"]

/-- The key set of `getImageOptimizerEnvironment`. -/
def imageOptimizerEnvKeys : List String :=
  ["BUCKET_NAME", "BUCKET_KEY_PREFIX"]

/-- The environment expression of `createFunctionOrigin`:
`{...fnProps?.environment, ...environment}` — the caller override spread
first, the system-assigned environment spread second, so the system value
wins on any key collision under `objGet`. -/
def mergedFunctionEnvironment (overrideEnv systemEnv : List (String × String)) :
    List (String × String) :=
  overrideEnv ++ systemEnv

/-- Descriptor of a created Lambda function: the parameters the construct
passes to the CDK `Function` class and to `addFunctionUrl`. -/
structure FunctionDesc where
  key : String
  handler : String
  bundlePath : String
  runtime : String
  architecture : String
  memorySize : Nat
  timeoutSeconds : Option Nat
  loggingFormat : String
  logGroup : Option String
  environment : List (String × String)
  urlAuthType : String
  invokeMode : String
deriving DecidableEq

/-- Descriptor of a resolved CloudFront origin. -/
inductive OriginDesc where
  | s3Bucket (originId : String) (originPath : String)
  | httpFunction (originId : Option String) (fn : FunctionDesc)
  | functionUrlWithOAC (originId : String) (fn : FunctionDesc)
deriving DecidableEq

/-- Models `path.join(base, "..", rel)` as a token; the construct only ever
passes the result to `Code.fromAsset`. -/
def pathJoinParent (base rel : String) : String :=
  base ++ "/../" ++ rel

/-- The `createFunctionOrigin` method: builds the server-role Lambda for an
origin key, merging `fnProps` over fixed defaults, with an open
(`AuthType.NONE`) function URL whose invoke mode follows `origin.streaming`. -/
def createFunctionOrigin (ctx : CloudContext) (openNextPath : String)
    (propsLogGroup : Option String) (key : String) (o : FunctionOriginSpec)
    (originId : Option String) (fnProps : Option DefaultFunctionProps) :
    FunctionDesc × OriginDesc :=
  let environment := mergedFunctionEnvironment
    (match fnProps with
     | some p => p.environment
     | none => [])
    (getServerEnvironment ctx)
  let fn : FunctionDesc :=
    { key := key
      handler := o.handler
      bundlePath := pathJoinParent openNextPath o.bundle
      runtime := (fnProps.bind (fun p => p.runtime)).getD "NODEJS_24_X"
      architecture := (fnProps.bind (fun p => p.architecture)).getD "ARM_64"
      memorySize := (fnProps.bind (fun p => p.memorySize)).getD 1024
      timeoutSeconds := some ((fnProps.bind (fun p => p.timeoutSeconds)).getD 10)
      loggingFormat := (fnProps.bind (fun p => p.loggingFormat)).getD "JSON"
      logGroup :=
        match fnProps.bind (fun p => p.logGroup) with
        | some g => some g
        | none => propsLogGroup
      environment := environment
      urlAuthType := "NONE"
      invokeMode :=
        match o.streaming with
        | some true => "RESPONSE_STREAM"
        | _ => "BUFFERED" }
  (fn, OriginDesc.httpFunction originId fn)

/-- The `createImageOptimizerOrigin` method: fixed runtime, architecture and
memory (no `fnProps` parameter in the source), the image-optimizer
environment, an IAM-authorized function URL and an origin-access-control
wrapped origin. The CDK default timeout applies (no `timeout` passed). -/
def createImageOptimizerOrigin (ctx : CloudContext) (openNextPath : String)
    (propsLogGroup : Option String) (o : FunctionOriginSpec) :
    FunctionDesc × OriginDesc :=
  let fn : FunctionDesc :=
    { key := "imageOptimizer"
      handler := o.handler
      bundlePath := pathJoinParent openNextPath o.bundle
      runtime := "NODEJS_24_X"
      architecture := "ARM_64"
      memorySize := 1024
      timeoutSeconds := none
      loggingFormat := "JSON"
      logGroup := propsLogGroup
      environment := getImageOptimizerEnvironment ctx
      urlAuthType := "AWS_IAM"
      invokeMode := "BUFFERED" }
  (fn, OriginDesc.functionUrlWithOAC "ImageOptimizer" fn)

/-- Models `key.charAt(0).toUpperCase() + key.slice(1)`. -/
def capitalizeKey (s : String) : String :=
  match s.data with
  | [] => ""
  | c :: cs => String.mk (c.toUpper :: cs)

/-- Descriptor of a resource declared by the construct, in declaration
order. Log groups owned by sub-resources and IAM grants are not listed
separately; a Lambda resource carries its full descriptor. -/
inductive Resource where
  | bucket
  | table
  | revalidationInsertFn
  | revalidationProviderLogGroup
  | revalidationProvider
  | revalidationResource
  | queue
  | revalidationConsumerFn
  | certificate (domainName : String)
  | bucketDeployment (srcDir destKey : String)
  | lambdaFn (fn : FunctionDesc)
  | serverCachePolicyResource
  | cloudfrontFunction
  | distributionResource
  | aliasRecordA (domainName : String)
  | aliasRecordAAAA (domainName : String)
  | warmerFn
  | warmerRule (intervalMinutes : Nat)
  | prewarmerFn
  | prewarmerProvider
  | prewarmerResource (configJson : String)
deriving DecidableEq

/-- Result of the `createOrigins` method: the origin map in insertion order
(`s3`, `default`, `imageOptimizer`, then the extra function origins), the
resources it declared, and the captured default server function. -/
structure OriginsResult where
  origins : List (String × OriginDesc)
  resources : List Resource
  defaultFn : FunctionDesc
deriving DecidableEq

/-- The `createOrigins` method. The `reduce` over the remaining origin
entries keeps exactly the `type === "function"` ones in order, which is a
`filterMap`; only the `default` origin receives `defaultFunctionProps`. -/
def createOrigins (ctx : CloudContext) (openNextPath : String)
    (propsLogGroup : Option String) (fnProps : Option DefaultFunctionProps)
    (out : OpenNextOutput) : OriginsResult :=
  let deployments := out.s3.copy.map
    (fun c => Resource.bucketDeployment c.srcDir c.destKey)
  let defPair := createFunctionOrigin ctx openNextPath propsLogGroup "default"
    out.defaultOrigin (some "NextJsServer") fnProps
  let imgPair := createImageOptimizerOrigin ctx openNextPath propsLogGroup
    out.imageOptimizer
  let rest := out.restOrigins.filterMap
    (fun kv =>
      match kv.2 with
      | ExtraOriginSpec.functionOrigin f =>
        some (kv.1, createFunctionOrigin ctx openNextPath propsLogGroup kv.1 f
          (some (capitalizeKey kv.1)) none)
      | ExtraOriginSpec.s3Origin _ => none)
  { origins :=
      [("s3", OriginDesc.s3Bucket "S3Bucket" out.s3.originPath),
       ("default", defPair.2),
       ("imageOptimizer", imgPair.2)] ++ rest.map (fun kv => (kv.1, kv.2.2))
    resources :=
      deployments ++ [Resource.lambdaFn defPair.1, Resource.lambdaFn imgPair.1]
        ++ rest.map (fun kv => Resource.lambdaFn kv.2.1)
    defaultFn := defPair.1 }

/-- The server cache policy built by `createServerCachePolicy`. -/
structure CachePolicyDesc where
  queryStringBehavior : String
  headerAllowList : List String
  cookieBehavior : String
  defaultTtlDays : Nat
  maxTtlDays : Nat
  minTtlDays : Nat
deriving DecidableEq

/-- The concrete server cache policy of `createServerCachePolicy`. -/
def serverCachePolicySpec : CachePolicyDesc :=
  { queryStringBehavior := "all"
    headerAllowList :=
      ["accept", "accept-encoding", "rsc", "next-router-prefetch",
       "next-router-state-tree", "next-url", "x-prerender-revalidate"]
    cookieBehavior := "none"
    defaultTtlDays := 0
    maxTtlDays := 365
    minTtlDays := 0 }

/-- The static cache policy of `createStaticCachePolicy`: the managed
`CACHING_OPTIMIZED` policy. -/
inductive ManagedCachePolicy where
  | cachingOptimized
deriving DecidableEq

/-- One additional behavior of the distribution: the origin it is bound to,
which cache policy it uses, and the always-attached viewer-request rewrite
function. -/
structure BehaviorSpec where
  originKey : String
  usesStaticCachePolicy : Bool
  hasOriginRequestPolicy : Bool
  hasRewriteFunction : Bool
deriving DecidableEq

/-- Origin resolution of a behavior entry, mirroring the JavaScript
truthiness test `behavior.origin ? origins[behavior.origin] :
origins.default`: both `undefined` and the falsy empty string fall back to
the `default` origin. -/
def resolveOriginKey (o : Option String) : String :=
  match o with
  | some s => if s = "" then "default" else s
  | none => "default"

/-- The behavior options built for one manifest behavior inside
`createDistribution`: static cache policy and no origin-request policy
exactly when `behavior.origin === "s3"`. -/
def behaviorSpecOf (b : Behavior) : BehaviorSpec :=
  { originKey := resolveOriginKey b.origin
    usesStaticCachePolicy := b.origin == some "s3"
    hasOriginRequestPolicy := !(b.origin == some "s3")
    hasRewriteFunction := true }

/-- The error message thrown for a behavior whose origin lookup fails:
`Origin '${behavior.origin || "default"}' not found in origins map`. -/
def originNotFoundMessage (key : String) : String :=
  "Origin \x27" ++ key ++ "\x27 not found in origins map"

/-- One step of the `reduce` over behaviors inside `createDistribution`:
look the resolved origin up, throw if it is absent, otherwise register the
behavior options under its pattern. -/
def behaviorStep (originKeys : List String)
    (acc : List (String × BehaviorSpec)) (b : Behavior) :
    Except String (List (String × BehaviorSpec)) :=
  if resolveOriginKey b.origin ∈ originKeys then
    Except.ok (acc ++ [(b.pattern, behaviorSpecOf b)])
  else
    Except.error (originNotFoundMessage (resolveOriginKey b.origin))

/-- The `additionalBehaviors` computation of `createDistribution`: the
manifest behaviors without the literal `"*"` pattern are folded into a map
keyed by pattern; a behavior whose resolved origin is absent throws. -/
def additionalBehaviors (behaviors : List Behavior) (originKeys : List String) :
    Except String (List (String × BehaviorSpec)) :=
  List.foldlM (behaviorStep originKeys) []
    (behaviors.filter (fun b => b.pattern != "*"))

/-- The advisory added by `createWarmer` when warming is requested but the
manifest has no warmer bundle. -/
def warmerAdvisoryMessage : String :=
  "Warming is enabled but OpenNext did not provide a warmer bundle. Skipping warmer creation. Ensure you\x27re using OpenNext 3.x+ with warming support."

/-- The first line of `createWarmer`:
`props.warm === false ? undefined : (props.warm ?? 1)`. -/
def resolvedWarmConcurrency (warm : WarmSetting) : Option Int :=
  match warm with
  | WarmSetting.disabled => none
  | WarmSetting.omitted => some 1
  | WarmSetting.concurrency n => some n

/-- The pre-warm toggle test `this.props.prewarmOnDeploy !== false`. -/
def prewarmEnabledFlag (p : Option Bool) : Bool :=
  match p with
  | some false => false
  | _ => true

/-- Outcome of the `createWarmer` decision: skipped silently, skipped with
one advisory, or enabled with a concurrency, a schedule interval and the
pre-warm toggle. -/
inductive WarmerOutcome where
  | skipped
  | advisory (message : String)
  | enabled (concurrency : Int) (intervalMinutes : Nat) (prewarm : Bool)
deriving DecidableEq

/-- The `createWarmer` decision logic: return early when warming is
disabled or non-positive (`!warmConcurrency || warmConcurrency <= 0`),
advise and return when the manifest carries no warmer bundle, otherwise
enable with interval `warmerInterval ?? 5 minutes`. -/
def createWarmer (warm : WarmSetting) (warmerIntervalMinutes : Option Nat)
    (prewarmOnDeploy : Option Bool) (warmerBundle : Option BaseFunction) :
    WarmerOutcome :=
  match resolvedWarmConcurrency warm with
  | none => WarmerOutcome.skipped
  | some c =>
    if c ≤ 0 then WarmerOutcome.skipped
    else
      match warmerBundle with
      | none => WarmerOutcome.advisory warmerAdvisoryMessage
      | some _ =>
        WarmerOutcome.enabled c (warmerIntervalMinutes.getD 5)
          (prewarmEnabledFlag prewarmOnDeploy)

/-- Number of warming resources a `createWarmer` outcome declares: warmer
function and schedule rule when enabled, plus pre-warmer function, provider
and custom resource when pre-warming is on. -/
def warmingResourceCount : WarmerOutcome → Nat
  | WarmerOutcome.skipped => 0
  | WarmerOutcome.advisory _ => 0
  | WarmerOutcome.enabled _ _ p => if p then 5 else 2

/-- Advisories emitted by a `createWarmer` outcome. -/
def warmerAdvisories : WarmerOutcome → List String
  | WarmerOutcome.advisory m => [m]
  | _ => []

/-- The serialized pre-warm configuration hashed by `createWarmer`:
`JSON.stringify({concurrency, interval, prewarmEnabled})` where
`prewarmEnabled` is the raw `props.prewarmOnDeploy` value and
`JSON.stringify` drops a field whose value is `undefined`. -/
def prewarmEnabledField : Option Bool → String
  | none => ""
  | some true => ",\"prewarmEnabled\":true"
  | some false => ",\"prewarmEnabled\":false"

/-- The full serialized pre-warm configuration object. The concurrency and
interval are positive integers at every call site, so their JSON number
serialization is plain decimal (`Int.repr` and `Nat.repr`). -/
def prewarmConfigJson (c : Int) (i : Nat) (p : Option Bool) : String :=
  "\x7b\"concurrency\":" ++ Int.repr c ++ ",\"interval\":" ++ Nat.repr i
    ++ prewarmEnabledField p ++ "\x7d"

/-- The idempotency key of the pre-warmer custom resource:
`createHash("sha256").update(json).digest("hex").substring(0, 16)`, with the
external SHA-256 hex digest supplied as the parameter `h`. -/
def prewarmConfigKey (h : String → String) (c : Int) (i : Nat)
    (p : Option Bool) : String :=
  (h (prewarmConfigJson c i p)).take 16

/-- The idempotency key actually computed by a construction: present exactly
when `createWarmer` enables warming and pre-warming is on. -/
def prewarmKey (h : String → String) (warm : WarmSetting)
    (warmerIntervalMinutes : Option Nat) (prewarmOnDeploy : Option Bool)
    (warmerBundle : Option BaseFunction) : Option String :=
  match createWarmer warm warmerIntervalMinutes prewarmOnDeploy warmerBundle with
  | WarmerOutcome.enabled c i p =>
    if p then some (prewarmConfigKey h c i prewarmOnDeploy) else none
  | _ => none

/-- Stand-in for the external SHA-256 hex digest in closed evaluations; the
statements using it only rely on its input, never on digest structure. -/
def hashStub : String → String :=
  fun s => s

/-- Descriptor of the created CloudFront distribution. -/
structure DistributionDesc where
  domainNames : List String
  hasCertificate : Bool
  defaultBehaviorOriginKey : String
  defaultBehaviorUsesServerCachePolicy : Bool
  defaultBehaviorHasRewriteFunction : Bool
  additionalBehaviors : List (String × BehaviorSpec)
  distributionDomainName : String
deriving DecidableEq

/-- The observable state of a successfully constructed `NextjsSite`. -/
structure SiteState where
  behaviors : List Behavior
  resources : List Resource
  origins : List (String × OriginDesc)
  serverCachePolicy : CachePolicyDesc
  staticCachePolicy : ManagedCachePolicy
  distribution : Option DistributionDesc
  customDomainName : Option String
  defaultServerFunction : FunctionDesc
  warmerOutcome : WarmerOutcome
  advisories : List String
deriving DecidableEq

/-- An error thrown by the constructor, together with the resources that had
already been declared when it was thrown. -/
structure ConstructError where
  message : String
  resourcesCreated : List Resource
deriving DecidableEq

/-- Message of the error thrown when `customDomain` is combined with
`createDistribution: false`. -/
def customDomainHeadlessMessage : String :=
  "customDomain cannot be used when createDistribution is false. Create the distribution yourself to configure custom domains."

/-- Message of the error thrown when `customDomain` has neither a
certificate nor a hosted zone. -/
def customDomainMissingCertMessage : String :=
  "customDomain requires either a certificate or a hostedZone. Provide a hostedZone to automatically create a DNS-validated certificate, or provide your own certificate."

/-- Message of the error thrown by the `url` and `customDomainUrl`
accessors when no distribution was created. -/
def noDistributionMessage : String :=
  "Distribution not available. Set createDistribution: true to enable automatic distribution creation."

/-- The custom-domain validity test of the constructor: a `customDomain`
with neither `certificate` nor `hostedZone`. -/
def missingCertAndZone (props : NextjsSiteProps) : Bool :=
  match props.customDomain with
  | some d => d.certificate.isNone && d.hostedZone.isNone
  | none => false

/-- The `addEnvironment("WARMER_ENABLED", "true")` call `createWarmer`
performs on the default server function when warming is enabled. -/
def withWarmerFlag (fn : FunctionDesc) : FunctionDesc :=
  { fn with environment := fn.environment ++ [("WARMER_ENABLED", "true")] }

/-- The `NextjsSite` constructor as a function from configuration and
manifest to either a thrown error (with the resources declared before the
throw) or the constructed state. The declaration order follows the source:
validations, bucket, revalidation table and queue, optional certificate,
origins, cache policies, optional distribution with alias records, warmer. -/
def construct (ctx : CloudContext) (props : NextjsSiteProps)
    (out : OpenNextOutput) : Except ConstructError SiteState :=
  if props.createDistribution = some false ∧ props.customDomain.isSome then
    Except.error { message := customDomainHeadlessMessage, resourcesCreated := [] }
  else if missingCertAndZone props then
    Except.error { message := customDomainMissingCertMessage, resourcesCreated := [] }
  else
    let openNextPath := props.openNextPath.getD ".open-next"
    let baseRes : List Resource :=
      [Resource.bucket, Resource.table, Resource.revalidationInsertFn,
       Resource.revalidationProviderLogGroup, Resource.revalidationProvider,
       Resource.revalidationResource, Resource.queue,
       Resource.revalidationConsumerFn]
    let res1 := baseRes ++
      (match props.customDomain with
       | some d =>
         if d.certificate.isNone && d.hostedZone.isSome then
           [Resource.certificate d.domainName]
         else []
       | none => [])
    let hasCert : Bool :=
      match props.customDomain with
      | some d => d.certificate.isSome || d.hostedZone.isSome
      | none => false
    let og := createOrigins ctx openNextPath props.logGroup
      props.defaultFunctionProps out
    let res2 := res1 ++ og.resources ++ [Resource.serverCachePolicyResource]
    let warmerOutcome := createWarmer props.warm props.warmerIntervalMinutes
      props.prewarmOnDeploy (out.additionalProps.bind (fun a => a.warmer))
    let warmRes : List Resource :=
      match warmerOutcome with
      | WarmerOutcome.enabled c i p =>
        [Resource.warmerFn, Resource.warmerRule i] ++
          (if p then
            [Resource.prewarmerFn, Resource.prewarmerProvider,
             Resource.prewarmerResource (prewarmConfigJson c i props.prewarmOnDeploy)]
           else [])
      | _ => []
    let defaultFnFinal : FunctionDesc :=
      match warmerOutcome with
      | WarmerOutcome.enabled _ _ _ => withWarmerFlag og.defaultFn
      | _ => og.defaultFn
    if props.createDistribution ≠ some false then
      let res3 := res2 ++ [Resource.cloudfrontFunction]
      if "default" ∈ og.origins.map Prod.fst then
        match additionalBehaviors out.behaviors (og.origins.map Prod.fst) with
        | Except.error msg =>
          Except.error { message := msg, resourcesCreated := res3 }
        | Except.ok abs =>
          let dist : DistributionDesc :=
            { domainNames :=
                match props.customDomain with
                | some d => [d.domainName]
                | none => []
              hasCertificate := hasCert
              defaultBehaviorOriginKey := "default"
              defaultBehaviorUsesServerCachePolicy := true
              defaultBehaviorHasRewriteFunction := true
              additionalBehaviors := abs
              distributionDomainName := ctx.distributionDomainName }
          let res4 := res3 ++ [Resource.distributionResource] ++
            (match props.customDomain with
             | some d =>
               if d.hostedZone.isSome then
                 [Resource.aliasRecordA d.domainName,
                  Resource.aliasRecordAAAA d.domainName]
               else []
             | none => [])
          Except.ok
            { behaviors := out.behaviors
              resources := res4 ++ warmRes
              origins := og.origins
              serverCachePolicy := serverCachePolicySpec
              staticCachePolicy := ManagedCachePolicy.cachingOptimized
              distribution := some dist
              customDomainName := props.customDomain.map (fun d => d.domainName)
              defaultServerFunction := defaultFnFinal
              warmerOutcome := warmerOutcome
              advisories := warmerAdvisories warmerOutcome }
      else
        Except.error
          { message := "Default origin must be defined", resourcesCreated := res3 }
    else
      Except.ok
        { behaviors := out.behaviors
          resources := res2 ++ warmRes
          origins := og.origins
          serverCachePolicy := serverCachePolicySpec
          staticCachePolicy := ManagedCachePolicy.cachingOptimized
          distribution := none
          customDomainName := props.customDomain.map (fun d => d.domainName)
          defaultServerFunction := defaultFnFinal
          warmerOutcome := warmerOutcome
          advisories := warmerAdvisories warmerOutcome }

/-- The `url` accessor: throws when no distribution exists, otherwise
returns `https://` followed by the generated distribution domain name. -/
def url (s : SiteState) : Except String String :=
  match s.distribution with
  | none => Except.error noDistributionMessage
  | some d => Except.ok ("https://" ++ d.distributionDomainName)

/-- The `customDomainUrl` accessor: throws when no distribution exists,
returns the custom domain when one was configured, and otherwise falls back
to the generated distribution domain name. -/
def customDomainUrl (s : SiteState) : Except String String :=
  match s.distribution with
  | none => Except.error noDistributionMessage
  | some d =>
    match s.customDomainName with
    | some n => Except.ok ("https://" ++ n)
    | none => Except.ok ("https://" ++ d.distributionDomainName)

/-- Decimal digit string of a natural number, most significant digit first:
the reference function `Nat.toDigitsCore` computes (used to reason about
`Nat.repr` in the idempotency-key statements). -/
def repChars (n : Nat) : List Char :=
  if h : n < 10 then [Nat.digitChar n]
  else repChars (n / 10) ++ [Nat.digitChar (n % 10)]
termination_by n
decreasing_by
  exact Nat.div_lt_self (by omega) (by omega)

/-- The warming-requested condition of the spec: a positive configured
concurrency (`warm` omitted resolves to the default `1`). -/
def warmPositive (w : WarmSetting) : Prop :=
  match w with
  | WarmSetting.omitted => True
  | WarmSetting.disabled => False
  | WarmSetting.concurrency n => 0 < n

instance (w : WarmSetting) : Decidable (warmPositive w) := by
  unfold warmPositive
  cases w <;> infer_instance

/-- Concrete deploy-time values for closed evaluations. -/
def ctx0 : CloudContext :=
  { bucketName := "opennext-bucket"
    region := "us-east-1"
    queueUrl := "https://sqs/queue"
    tableName := "revalidation-table"
    distributionDomainName := "d111.cloudfront.net" }

/-- Concrete default server origin spec for closed evaluations. -/
def serverOrigin0 : FunctionOriginSpec :=
  { handler := "index.handler", bundle := "server-functions/default", streaming := some false }

/-- Concrete image optimizer origin spec for closed evaluations. -/
def imageOrigin0 : FunctionOriginSpec :=
  { handler := "index.handler", bundle := "image-optimization-function", streaming := none }

/-- Concrete extra compute origin spec for closed evaluations. -/
def apiOrigin0 : FunctionOriginSpec :=
  { handler := "index.handler", bundle := "server-functions/api", streaming := none }

/-- Concrete s3 origin spec for closed evaluations. -/
def s3Origin0 : S3OriginSpec :=
  { originPath := "/_assets"
    copy := [{ srcDir := "assets", destKey := "_assets", cached := true }] }

/-- Concrete warmer bundle for closed evaluations. -/
def warmerBase0 : BaseFunction :=
  { handler := "index.handler", bundle := "warmer-function" }

/-- Concrete manifest: the example behavior list of the spec
(`*`, `_next/image*`, `_next/static/*`), warmer capability present. -/
def out0 : OpenNextOutput :=
  { s3 := s3Origin0
    defaultOrigin := serverOrigin0
    imageOptimizer := imageOrigin0
    restOrigins := []
    behaviors :=
      [{ pattern := "*", origin := some "default" },
       { pattern := "_next/image*", origin := some "imageOptimizer" },
       { pattern := "_next/static/*", origin := some "s3" }]
    additionalProps :=
      some { initializationFunction := none, warmer := some warmerBase0,
             revalidationFunction := none } }

/-- Concrete manifest whose only behavior declares the empty-string origin
name, a key absent from every resolved origin map. -/
def outEmptyOriginName : OpenNextOutput :=
  { out0 with behaviors := [{ pattern := "p", origin := some "" }] }

/-- Concrete manifest whose only behavior names the origin `missing`,
absent from every resolved origin map. -/
def outMissingOrigin : OpenNextOutput :=
  { out0 with behaviors := [{ pattern := "bad/*", origin := some "missing" }] }

/-- Concrete manifest with one extra compute origin `api`. -/
def outWithApi : OpenNextOutput :=
  { out0 with restOrigins := [("api", ExtraOriginSpec.functionOrigin apiOrigin0)] }

/-- Concrete props with every optional value absent and warming left at its
defaults. -/
def props0 : NextjsSiteProps :=
  { customDomain := none
    openNextPath := none
    defaultFunctionProps := none
    logGroup := none
    warm := WarmSetting.omitted
    warmerIntervalMinutes := none
    prewarmOnDeploy := none
    warmerLogGroup := none
    createDistribution := none }

/-- Concrete headless props (`createDistribution: false`). -/
def propsHeadless : NextjsSiteProps :=
  { props0 with createDistribution := some false }

/-- Concrete custom domain with neither certificate nor hosted zone. -/
def domainNoCert : DistributionDomainProps :=
  { domainName := "app.example.com", hostedZone := none, certificate := none }

/-- Concrete custom domain with a hosted zone. -/
def domainWithZone : DistributionDomainProps :=
  { domainName := "app.example.com", hostedZone := some "Z1", certificate := none }

/-- Concrete override bag carrying an image-optimizer key and a fresh key. -/
def overrideBag0 : DefaultFunctionProps :=
  { runtime := none
    architecture := none
    memorySize := none
    timeoutSeconds := none
    loggingFormat := none
    logGroup := none
    environment := [("BUCKET_NAME", "override-bucket"), ("CUSTOM_VAR", "custom-value")] }

/-- Concrete override bag requesting 2048 MB of memory. -/
def sizingBag0 : DefaultFunctionProps :=
  { runtime := none
    architecture := none
    memorySize := some 2048
    timeoutSeconds := none
    loggingFormat := none
    logGroup := none
    environment := [] }

/-- Concrete function descriptor for closed evaluations of the accessors. -/
def fnDesc0 : FunctionDesc :=
  { key := "default"
    handler := "index.handler"
    bundlePath := ".open-next/../server-functions/default"
    runtime := "NODEJS_24_X"
    architecture := "ARM_64"
    memorySize := 1024
    timeoutSeconds := some 10
    loggingFormat := "JSON"
    logGroup := none
    environment := getServerEnvironment ctx0
    urlAuthType := "NONE"
    invokeMode := "BUFFERED" }

/-- Concrete distribution descriptor for closed evaluations. -/
def distDesc0 : DistributionDesc :=
  { domainNames := []
    hasCertificate := false
    defaultBehaviorOriginKey := "default"
    defaultBehaviorUsesServerCachePolicy := true
    defaultBehaviorHasRewriteFunction := true
    additionalBehaviors := []
    distributionDomainName := "d111.cloudfront.net" }

/-- Concrete site state with a distribution and no custom domain. -/
def siteState0 : SiteState :=
  { behaviors := out0.behaviors
    resources := [Resource.bucket]
    origins := [("default", OriginDesc.httpFunction (some "NextJsServer") fnDesc0)]
    serverCachePolicy := serverCachePolicySpec
    staticCachePolicy := ManagedCachePolicy.cachingOptimized
    distribution := some distDesc0
    customDomainName := none
    defaultServerFunction := fnDesc0
    warmerOutcome := WarmerOutcome.skipped
    advisories := [] }

/-! ## Lemmas about JavaScript-object lookup -/

theorem objGet_foldl {α : Type} (k : String) :
    ∀ (m : List (String × α)) (acc : Option α),
      m.foldl (fun a kv => if kv.1 = k then some kv.2 else a) acc =
        match objGet m k with
        | some v => some v
        | none => acc := by
  intro m
  induction m with
  | nil =>
    intro acc
    rfl
  | cons kv tl ih =>
    intro acc
    have hcons : objGet (kv :: tl) k =
        match objGet tl k with
        | some v => some v
        | none => if kv.1 = k then some kv.2 else none :=
      ih (if kv.1 = k then some kv.2 else none)
    show tl.foldl _ (if kv.1 = k then some kv.2 else acc) = _
    rw [ih, hcons]
    rcases h : objGet tl k with _ | v
    · by_cases hk : kv.1 = k <;> simp [hk]
    · rfl

theorem objGet_append {α : Type} (xs ys : List (String × α)) (k : String) :
    objGet (xs ++ ys) k =
      match objGet ys k with
      | some v => some v
      | none => objGet xs k := by
  show (xs ++ ys).foldl _ none = _
  rw [List.foldl_append]
  exact objGet_foldl k ys (objGet xs k)

theorem objGet_cons {α : Type} (kv : String × α) (tl : List (String × α))
    (k : String) :
    objGet (kv :: tl) k =
      match objGet tl k with
      | some v => some v
      | none => if kv.1 = k then some kv.2 else none :=
  objGet_foldl k tl (if kv.1 = k then some kv.2 else none)

theorem objGet_isSome_iff {α : Type} :
    ∀ (m : List (String × α)) (k : String),
      (objGet m k).isSome = true ↔ k ∈ m.map Prod.fst := by
  intro m
  induction m with
  | nil =>
    intro k
    simp [objGet]
  | cons kv tl ih =>
    intro k
    rw [objGet_cons]
    rcases h : objGet tl k with _ | v
    · have htl : ¬ k ∈ tl.map Prod.fst := by
        rw [← ih k, h]
        simp
      by_cases hk : kv.1 = k
      · simp [hk, htl]
      · simp only [List.map_cons, List.mem_cons]
        constructor
        · intro hcontra
          simp [hk] at hcontra
        · intro hcontra
          rcases hcontra with hcontra | hcontra
          · exact absurd hcontra.symm hk
          · exact absurd hcontra htl
    · have htl : k ∈ tl.map Prod.fst := by
        rw [← ih k, h]
        rfl
      simp [htl]

theorem objGet_eq_some_of_nodup {α : Type} :
    ∀ (m : List (String × α)) (k : String) (v : α),
      (m.map Prod.fst).Nodup → (k, v) ∈ m → objGet m k = some v := by
  intro m
  induction m with
  | nil =>
    intro k v _ hmem
    exact absurd hmem (List.not_mem_nil _)
  | cons kv tl ih =>
    intro k v hnd hmem
    rw [objGet_cons]
    rcases List.mem_cons.mp hmem with heq | htl
    · have hknotin : ¬ k ∈ tl.map Prod.fst := by
        have := (List.nodup_cons.mp hnd).1
        rw [← heq] at this
        exact this
      have hnone : objGet tl k = none := by
        rcases h : objGet tl k with _ | w
        · rfl
        · exact absurd ((objGet_isSome_iff tl k).mp (by rw [h]; rfl)) hknotin
      rw [hnone, ← heq]
      simp
    · rw [ih k v (List.nodup_cons.mp hnd).2 htl]

/-! ## C1: environment-variable partition -/

/-- C1 counterexample: the claim as stated is false. For the override bag
`overrideBag0`, which carries the image-optimizer key `BUCKET_NAME`, the
resolved environment of the default-role compute unit does contain an
image-optimizer key: the merge preserves override-only keys, so an override
can inject `BUCKET_NAME` into the default unit. -/
theorem claim_C1_counterexample :
    ¬ (∀ (ctx : CloudContext) (fnProps : DefaultFunctionProps),
        ∀ k ∈ imageOptimizerEnvKeys,
          objGet ((createFunctionOrigin ctx ".open-next" none "default"
            serverOrigin0 (some "NextJsServer") (some fnProps)).1.environment) k
            = none) := by
  intro hclaim
  have h := hclaim ctx0 overrideBag0 "BUCKET_NAME" (by decide)
  exact absurd h (by decide)

/-- C1 (amended): the system-assigned environments are exactly partitioned —
`getServerEnvironment` binds exactly the six server keys,
`getImageOptimizerEnvironment` exactly the two image-optimizer keys, and the
two key sets are disjoint. Merging a caller override bag never overwrites a
system-assigned value (system wins on every collision) and preserves every
override-only key; hence the merged default-unit environment is free of
image-optimizer keys whenever the override bag itself is. The
image-optimizer unit never merges overrides at all. -/
theorem claim_C1_partition :
    (∀ (ctx : CloudContext) (k : String),
        (objGet (getServerEnvironment ctx) k).isSome = true ↔ k ∈ serverEnvKeys)
    ∧ (∀ (ctx : CloudContext) (k : String),
        (objGet (getImageOptimizerEnvironment ctx) k).isSome = true ↔
          k ∈ imageOptimizerEnvKeys)
    ∧ (∀ k ∈ serverEnvKeys, ¬ k ∈ imageOptimizerEnvKeys)
    ∧ (∀ (ctx : CloudContext) (ov : List (String × String)) (k : String),
        k ∈ serverEnvKeys →
          objGet (mergedFunctionEnvironment ov (getServerEnvironment ctx)) k
            = objGet (getServerEnvironment ctx) k)
    ∧ (∀ (ctx : CloudContext) (ov : List (String × String)) (k : String),
        ¬ k ∈ serverEnvKeys →
          objGet (mergedFunctionEnvironment ov (getServerEnvironment ctx)) k
            = objGet ov k)
    ∧ (∀ (ctx : CloudContext) (ov : List (String × String)) (k : String),
        k ∈ imageOptimizerEnvKeys → objGet ov k = none →
          objGet (mergedFunctionEnvironment ov (getServerEnvironment ctx)) k
            = none)
    ∧ (∀ (ctx : CloudContext) (p : String) (lg : Option String) (key : String)
        (o : FunctionOriginSpec) (oid : Option String)
        (fp : DefaultFunctionProps),
        (createFunctionOrigin ctx p lg key o oid (some fp)).1.environment
          = mergedFunctionEnvironment fp.environment (getServerEnvironment ctx))
    ∧ (∀ (ctx : CloudContext) (p : String) (lg : Option String)
        (o : FunctionOriginSpec),
        (createImageOptimizerOrigin ctx p lg o).1.environment
          = getImageOptimizerEnvironment ctx) := by
  have hserver : ∀ (ctx : CloudContext) (k : String),
      (objGet (getServerEnvironment ctx) k).isSome = true ↔ k ∈ serverEnvKeys := by
    intro ctx k
    have hmap : (getServerEnvironment ctx).map Prod.fst = serverEnvKeys := rfl
    rw [objGet_isSome_iff, hmap]
  have himage : ∀ (ctx : CloudContext) (k : String),
      (objGet (getImageOptimizerEnvironment ctx) k).isSome = true ↔
        k ∈ imageOptimizerEnvKeys := by
    intro ctx k
    have hmap : (getImageOptimizerEnvironment ctx).map Prod.fst
        = imageOptimizerEnvKeys := rfl
    rw [objGet_isSome_iff, hmap]
  have hwin : ∀ (ctx : CloudContext) (ov : List (String × String)) (k : String),
      k ∈ serverEnvKeys →
        objGet (mergedFunctionEnvironment ov (getServerEnvironment ctx)) k
          = objGet (getServerEnvironment ctx) k := by
    intro ctx ov k hk
    have hs := (hserver ctx k).mpr hk
    rcases hsys : objGet (getServerEnvironment ctx) k with _ | v
    · rw [hsys] at hs
      exact absurd hs (by simp)
    · show objGet (ov ++ getServerEnvironment ctx) k = some v
      rw [objGet_append, hsys]
  have hkeep : ∀ (ctx : CloudContext) (ov : List (String × String)) (k : String),
      ¬ k ∈ serverEnvKeys →
        objGet (mergedFunctionEnvironment ov (getServerEnvironment ctx)) k
          = objGet ov k := by
    intro ctx ov k hk
    have hnone : objGet (getServerEnvironment ctx) k = none := by
      rcases hsys : objGet (getServerEnvironment ctx) k with _ | v
      · rfl
      · exact absurd ((hserver ctx k).mp (by rw [hsys]; rfl)) hk
    show objGet (ov ++ getServerEnvironment ctx) k = objGet ov k
    rw [objGet_append, hnone]
  refine ⟨hserver, himage, by decide, hwin, hkeep, ?_, ?_, ?_⟩
  · intro ctx ov k hk hov
    have hknot : ¬ k ∈ serverEnvKeys := by
      simp only [imageOptimizerEnvKeys, List.mem_cons, List.not_mem_nil,
        or_false] at hk
      rcases hk with h1 | h1 <;> (subst h1; decide)
    rw [hkeep ctx ov k hknot, hov]
  · intro ctx p lg key o oid fp
    rfl
  · intro ctx p lg o
    rfl

/-- C1 witness: the partition and merge facts evaluated on concrete data. -/
theorem claim_C1_partition_witness :
    ((objGet (getServerEnvironment ctx0) "CACHE_DYNAMO_TABLE").isSome = true)
    ∧ (objGet (mergedFunctionEnvironment overrideBag0.environment
        (getServerEnvironment ctx0)) "CACHE_BUCKET_NAME"
        = objGet (getServerEnvironment ctx0) "CACHE_BUCKET_NAME")
    ∧ (objGet (mergedFunctionEnvironment overrideBag0.environment
        (getServerEnvironment ctx0)) "CUSTOM_VAR"
        = objGet overrideBag0.environment "CUSTOM_VAR") := by
  refine ⟨?_, ?_, ?_⟩
  · exact (claim_C1_partition.1 ctx0 "CACHE_DYNAMO_TABLE").mpr (by decide)
  · exact claim_C1_partition.2.2.2.1 ctx0 overrideBag0.environment
      "CACHE_BUCKET_NAME" (by decide)
  · exact claim_C1_partition.2.2.2.2.1 ctx0 overrideBag0.environment
      "CUSTOM_VAR" (by decide)

/-! ## C2: warming controller decision -/

/-- C2 counterexample: the claim as stated is false. With `warm` omitted,
warmer capability present, and a caller-supplied `warmerInterval` of 10
minutes, warming is enabled with a schedule interval of 10 minutes, not the
5 minutes the claim asserts for every such configuration. -/
theorem claim_C2_counterexample :
    ¬ (∀ (i : Option Nat) (p : Option Bool) (b : BaseFunction),
        ∃ pr, createWarmer WarmSetting.omitted i p (some b)
          = WarmerOutcome.enabled 1 5 pr) := by
  intro hclaim
  rcases hclaim (some 10) none warmerBase0 with ⟨pr, hpr⟩
  have h10 : createWarmer WarmSetting.omitted (some 10) none (some warmerBase0)
      = WarmerOutcome.enabled 1 10 true := by decide
  rw [h10] at hpr
  cases hpr

/-- C2 (amended): the warming decision of `createWarmer`. With `warm = false`
or a non-positive concurrency the outcome is `skipped` — zero warming
resources, zero advisories — regardless of warmer capability. With a
positive (or defaulted) concurrency but no warmer bundle, the outcome is
exactly one advisory and zero warming resources. With `warm` omitted,
`warmerInterval` omitted and a warmer bundle present, warming is enabled
with concurrency 1 and a 5-minute schedule interval. -/
theorem claim_C2_warming_decision :
    (∀ (i : Option Nat) (p : Option Bool) (b : Option BaseFunction),
        createWarmer WarmSetting.disabled i p b = WarmerOutcome.skipped)
    ∧ (∀ (i : Option Nat) (p : Option Bool) (b : Option BaseFunction) (n : Int),
        n ≤ 0 →
          createWarmer (WarmSetting.concurrency n) i p b = WarmerOutcome.skipped)
    ∧ (∀ w, createWarmer w none none none = WarmerOutcome.skipped →
        warmingResourceCount (createWarmer w none none none) = 0
        ∧ warmerAdvisories (createWarmer w none none none) = [])
    ∧ (∀ (i : Option Nat) (p : Option Bool) (w : WarmSetting), warmPositive w →
        createWarmer w i p none = WarmerOutcome.advisory warmerAdvisoryMessage
        ∧ (warmerAdvisories (createWarmer w i p none)).length = 1
        ∧ warmingResourceCount (createWarmer w i p none) = 0)
    ∧ (∀ (p : Option Bool) (b : BaseFunction),
        createWarmer WarmSetting.omitted none p (some b)
          = WarmerOutcome.enabled 1 5 (prewarmEnabledFlag p)) := by
  refine ⟨?_, ?_, ?_, ?_, ?_⟩
  · intro i p b
    rfl
  · intro i p b n hn
    simp [createWarmer, resolvedWarmConcurrency, hn]
  · intro w hw
    rw [hw]
    exact ⟨rfl, rfl⟩
  · intro i p w hw
    cases w with
    | omitted =>
      exact ⟨rfl, rfl, rfl⟩
    | disabled =>
      exact absurd hw (by simp [warmPositive])
    | concurrency n =>
      have hn : ¬ n ≤ 0 := by
        simp only [warmPositive] at hw
        omega
      refine ⟨?_, ?_, ?_⟩ <;>
        simp [createWarmer, resolvedWarmConcurrency, hn, warmerAdvisories,
          warmingResourceCount]
  · intro p b
    rfl

/-- C2 witness: the decision evaluated on concrete configurations. -/
theorem claim_C2_warming_decision_witness :
    (createWarmer (WarmSetting.concurrency (-2)) none none (some warmerBase0)
      = WarmerOutcome.skipped)
    ∧ (createWarmer (WarmSetting.concurrency 3) none none none
      = WarmerOutcome.advisory warmerAdvisoryMessage)
    ∧ (createWarmer WarmSetting.omitted none none (some warmerBase0)
      = WarmerOutcome.enabled 1 5 (prewarmEnabledFlag none)) := by
  refine ⟨?_, ?_, ?_⟩
  · exact claim_C2_warming_decision.2.1 none none (some warmerBase0) (-2)
      (by norm_num)
  · exact (claim_C2_warming_decision.2.2.2.1 none none
      (WarmSetting.concurrency 3) (by norm_num [warmPositive])).1
  · exact claim_C2_warming_decision.2.2.2.2 none warmerBase0

/-! ## C3: custom-domain configuration errors -/

/-- C3: custom-domain configuration errors are synchronous hard stops raised
before any resource is declared. Constructing with a `customDomain` that has
neither certificate nor hosted zone throws one of the two descriptive
custom-domain errors with an empty resource trace; constructing with
`createDistribution: false` together with any `customDomain` throws the
headless-conflict error, also with an empty resource trace. -/
theorem claim_C3_domain_validation :
    (∀ (ctx : CloudContext) (props : NextjsSiteProps) (out : OpenNextOutput)
        (d : DistributionDomainProps),
        props.customDomain = some d → d.certificate = none → d.hostedZone = none →
          ∃ e, construct ctx props out = Except.error e
            ∧ e.resourcesCreated = []
            ∧ (e.message = customDomainMissingCertMessage
               ∨ e.message = customDomainHeadlessMessage))
    ∧ (∀ (ctx : CloudContext) (props : NextjsSiteProps) (out : OpenNextOutput),
        props.createDistribution = some false → props.customDomain.isSome →
          construct ctx props out = Except.error
            { message := customDomainHeadlessMessage, resourcesCreated := [] }) := by
  constructor
  · intro ctx props out d hd hcert hzone
    by_cases hcd : props.createDistribution = some false
    · have hc : construct ctx props out = Except.error
          { message := customDomainHeadlessMessage, resourcesCreated := [] } := by
        unfold construct
        rw [if_pos ⟨hcd, by rw [hd]; rfl⟩]
      exact ⟨_, hc, rfl, Or.inr rfl⟩
    · have hmiss : missingCertAndZone props = true := by
        simp [missingCertAndZone, hd, hcert, hzone]
      have hc : construct ctx props out = Except.error
          { message := customDomainMissingCertMessage, resourcesCreated := [] } := by
        unfold construct
        rw [if_neg (by intro hcontra; exact hcd hcontra.1), if_pos hmiss]
      exact ⟨_, hc, rfl, Or.inl rfl⟩
  · intro ctx props out hcd hdom
    unfold construct
    rw [if_pos ⟨hcd, hdom⟩]

/-- C3 witness: both validation errors evaluated on concrete props. -/
theorem claim_C3_domain_validation_witness :
    (∃ e, construct ctx0 { props0 with customDomain := some domainNoCert } out0
        = Except.error e
      ∧ e.resourcesCreated = []
      ∧ (e.message = customDomainMissingCertMessage
         ∨ e.message = customDomainHeadlessMessage))
    ∧ (construct ctx0 { propsHeadless with customDomain := some domainWithZone }
        out0 = Except.error
        { message := customDomainHeadlessMessage, resourcesCreated := [] }) := by
  constructor
  · exact claim_C3_domain_validation.1 ctx0 _ out0 domainNoCert rfl rfl rfl
  · exact claim_C3_domain_validation.2 ctx0 _ out0 rfl rfl

/-! ## Origin-map key lemmas -/

theorem restOrigins_keys (ctx : CloudContext) (p : String) (lg : Option String) :
    ∀ (l : List (String × ExtraOriginSpec)),
      ((l.filterMap (fun kv =>
          match kv.2 with
          | ExtraOriginSpec.functionOrigin f =>
            some (kv.1, createFunctionOrigin ctx p lg kv.1 f
              (some (capitalizeKey kv.1)) none)
          | ExtraOriginSpec.s3Origin _ => none)).map
        (fun kv => (kv.1, kv.2.2))).map Prod.fst
        = l.filterMap (fun kv =>
            match kv.2 with
            | ExtraOriginSpec.functionOrigin _ => some kv.1
            | ExtraOriginSpec.s3Origin _ => none) := by
  intro l
  induction l with
  | nil => rfl
  | cons kv tl ih =>
    rcases kv with ⟨k, spec⟩
    cases spec with
    | functionOrigin f => simp only [List.filterMap_cons, List.map_cons]; rw [ih]
    | s3Origin s => simp only [List.filterMap_cons]; rw [ih]

theorem createOrigins_keys (ctx : CloudContext) (p : String) (lg : Option String)
    (fp : Option DefaultFunctionProps) (out : OpenNextOutput) :
    (createOrigins ctx p lg fp out).origins.map Prod.fst =
      ["s3", "default", "imageOptimizer"] ++
        out.restOrigins.filterMap (fun kv =>
          match kv.2 with
          | ExtraOriginSpec.functionOrigin _ => some kv.1
          | ExtraOriginSpec.s3Origin _ => none) := by
  show (([("s3", OriginDesc.s3Bucket "S3Bucket" out.s3.originPath),
       ("default", _), ("imageOptimizer", _)] ++ _).map Prod.fst = _)
  rw [List.map_append, restOrigins_keys]
  rfl

theorem createOrigins_defaultFn_mem (ctx : CloudContext) (p : String)
    (lg : Option String) (fp : Option DefaultFunctionProps)
    (out : OpenNextOutput) :
    Resource.lambdaFn (createOrigins ctx p lg fp out).defaultFn
      ∈ (createOrigins ctx p lg fp out).resources := by
  show Resource.lambdaFn _ ∈ _ ++ [Resource.lambdaFn _, Resource.lambdaFn _] ++ _
  simp only [List.mem_append, List.mem_cons]
  exact Or.inl (Or.inr (Or.inl rfl))

/-! ## C9: the unknown-origin check only runs when a distribution is created -/

/-- C9: for every headless construction (`createDistribution: false`, no
custom domain) the constructor succeeds for every manifest — including any
manifest whose behaviors reference unknown origin names — and exposes the
manifest behaviors verbatim. -/
theorem claim_C9_headless_skips_origin_check :
    ∀ (ctx : CloudContext) (props : NextjsSiteProps) (out : OpenNextOutput),
      props.createDistribution = some false → props.customDomain = none →
        ∃ s, construct ctx props out = Except.ok s
          ∧ s.behaviors = out.behaviors := by
  intro ctx props out h1 h2
  simp only [construct, h1, h2, missingCertAndZone, Option.isSome_none,
    Bool.false_eq_true, and_false, if_false, Bool.false_eq_true, ne_eq,
    not_true_eq_false, if_true, ite_false, ite_true]
  exact ⟨_, rfl, rfl⟩

/-- C9 witness: a headless construction over a manifest whose only behavior
references the unknown origin name `missing` succeeds and exposes that
behavior verbatim. -/
theorem claim_C9_headless_skips_origin_check_witness :
    ∃ s, construct ctx0 propsHeadless
        { out0 with behaviors := [{ pattern := "bad/*", origin := some "missing" }] }
        = Except.ok s
      ∧ s.behaviors = [{ pattern := "bad/*", origin := some "missing" }] :=
  claim_C9_headless_skips_origin_check ctx0 propsHeadless
    { out0 with behaviors := [{ pattern := "bad/*", origin := some "missing" }] }
    rfl rfl

/-! ## C7: headless mode -/

/-- C7: in headless mode (`createDistribution: false`, no custom domain) the
constructor still succeeds: the resolved origin map (with its three required
keys and every extra compute origin), the manifest behaviors and both cache
policies are exposed, bucket, table, queue and the compute functions are
still created, the distribution is absent, and both URL accessors throw the
no-distribution error. -/
theorem claim_C7_headless_mode :
    ∀ (ctx : CloudContext) (props : NextjsSiteProps) (out : OpenNextOutput),
      props.createDistribution = some false → props.customDomain = none →
        ∃ s, construct ctx props out = Except.ok s
          ∧ s.distribution = none
          ∧ url s = Except.error noDistributionMessage
          ∧ customDomainUrl s = Except.error noDistributionMessage
          ∧ s.origins = (createOrigins ctx (props.openNextPath.getD ".open-next")
              props.logGroup props.defaultFunctionProps out).origins
          ∧ s.origins.map Prod.fst =
              ["s3", "default", "imageOptimizer"] ++
                out.restOrigins.filterMap (fun kv =>
                  match kv.2 with
                  | ExtraOriginSpec.functionOrigin _ => some kv.1
                  | ExtraOriginSpec.s3Origin _ => none)
          ∧ s.behaviors = out.behaviors
          ∧ s.serverCachePolicy = serverCachePolicySpec
          ∧ s.staticCachePolicy = ManagedCachePolicy.cachingOptimized
          ∧ Resource.bucket ∈ s.resources
          ∧ Resource.table ∈ s.resources
          ∧ Resource.queue ∈ s.resources
          ∧ Resource.lambdaFn (createOrigins ctx (props.openNextPath.getD ".open-next")
              props.logGroup props.defaultFunctionProps out).defaultFn ∈ s.resources := by
  intro ctx props out h1 h2
  simp only [construct, h1, h2, missingCertAndZone, Option.isSome_none,
    Bool.false_eq_true, and_false, if_false, ne_eq, not_true_eq_false,
    ite_false, ite_true]
  refine ⟨_, rfl, ?_, ?_, ?_, ?_, ?_, ?_, ?_, ?_, ?_, ?_, ?_, ?_⟩ <;>
    first
      | rfl
      | trivial
      | exact createOrigins_keys ctx (props.openNextPath.getD ".open-next")
          props.logGroup props.defaultFunctionProps out
      | (simp only [List.mem_append]
         exact Or.inl (Or.inl (Or.inr (createOrigins_defaultFn_mem ctx
           (props.openNextPath.getD ".open-next") props.logGroup
           props.defaultFunctionProps out))))
      | simp [List.mem_append]

/-- C7 witness: a concrete headless construction. -/
theorem claim_C7_headless_mode_witness :
    ∃ s, construct ctx0 propsHeadless outWithApi = Except.ok s
      ∧ s.distribution = none
      ∧ url s = Except.error noDistributionMessage
      ∧ customDomainUrl s = Except.error noDistributionMessage
      ∧ s.origins = (createOrigins ctx0 ".open-next" none none outWithApi).origins
      ∧ s.origins.map Prod.fst =
          ["s3", "default", "imageOptimizer"] ++
            outWithApi.restOrigins.filterMap (fun kv =>
              match kv.2 with
              | ExtraOriginSpec.functionOrigin _ => some kv.1
              | ExtraOriginSpec.s3Origin _ => none)
      ∧ s.behaviors = outWithApi.behaviors
      ∧ s.serverCachePolicy = serverCachePolicySpec
      ∧ s.staticCachePolicy = ManagedCachePolicy.cachingOptimized
      ∧ Resource.bucket ∈ s.resources
      ∧ Resource.table ∈ s.resources
      ∧ Resource.queue ∈ s.resources
      ∧ Resource.lambdaFn (createOrigins ctx0 ".open-next" none none
          outWithApi).defaultFn ∈ s.resources :=
  claim_C7_headless_mode ctx0 propsHeadless outWithApi rfl rfl

/-! ## C10: customDomainUrl falls back to the distribution URL -/

/-- C10: when a distribution exists and no custom domain was configured, the
`customDomainUrl` accessor neither throws nor returns a distinct value: it
returns `https://` followed by the generated distribution domain name,
exactly the value of the `url` accessor. -/
theorem claim_C10_customDomainUrl_fallback :
    ∀ (s : SiteState) (d : DistributionDesc),
      s.distribution = some d → s.customDomainName = none →
        customDomainUrl s = Except.ok ("https://" ++ d.distributionDomainName)
        ∧ customDomainUrl s = url s := by
  intro s d hd hc
  unfold customDomainUrl url
  rw [hd, hc]
  exact ⟨rfl, rfl⟩

/-- C10 witness: the fallback evaluated on a concrete state. -/
theorem claim_C10_customDomainUrl_fallback_witness :
    customDomainUrl siteState0 = Except.ok "https://d111.cloudfront.net"
    ∧ customDomainUrl siteState0 = url siteState0 :=
  claim_C10_customDomainUrl_fallback siteState0 distDesc0 rfl rfl

/-! ## Behavior-fold lemmas -/

theorem foldlM_behaviorStep_ok (keys : List String) :
    ∀ (l : List Behavior) (acc : List (String × BehaviorSpec)),
      (∀ b ∈ l, resolveOriginKey b.origin ∈ keys) →
        List.foldlM (behaviorStep keys) acc l =
          Except.ok (acc ++ l.map (fun b => (b.pattern, behaviorSpecOf b))) := by
  intro l
  induction l with
  | nil =>
    intro acc _
    simp only [List.foldlM_nil, List.map_nil, List.append_nil]
    rfl
  | cons b tl ih =>
    intro acc h
    have hb := h b (List.mem_cons_self b tl)
    simp only [List.foldlM_cons, behaviorStep, if_pos hb, List.map_cons]
    rw [show (Except.ok (acc ++ [(b.pattern, behaviorSpecOf b)]) >>=
        fun acc2 => List.foldlM (behaviorStep keys) acc2 tl) =
        List.foldlM (behaviorStep keys) (acc ++ [(b.pattern, behaviorSpecOf b)]) tl
      from rfl]
    rw [ih (acc ++ [(b.pattern, behaviorSpecOf b)])
      (fun x hx => h x (List.mem_cons_of_mem b hx))]
    simp

theorem foldlM_behaviorStep_error (keys : List String) :
    ∀ (l : List Behavior) (acc : List (String × BehaviorSpec)),
      (∃ b ∈ l, ¬ resolveOriginKey b.origin ∈ keys) →
        ∃ msg, List.foldlM (behaviorStep keys) acc l = Except.error msg := by
  intro l
  induction l with
  | nil =>
    intro acc h
    rcases h with ⟨b, hb, _⟩
    exact absurd hb (List.not_mem_nil b)
  | cons hd tl ih =>
    intro acc h
    by_cases hhd : resolveOriginKey hd.origin ∈ keys
    · rcases h with ⟨b, hb, hbad⟩
      rcases List.mem_cons.mp hb with heq | htl
      · rw [← heq] at hhd
        exact absurd hhd hbad
      · rcases ih (acc ++ [(hd.pattern, behaviorSpecOf hd)]) ⟨b, htl, hbad⟩
          with ⟨msg, hmsg⟩
        refine ⟨msg, ?_⟩
        simp only [List.foldlM_cons, behaviorStep, if_pos hhd]
        exact hmsg
    · refine ⟨originNotFoundMessage (resolveOriginKey hd.origin), ?_⟩
      simp only [List.foldlM_cons, behaviorStep, if_neg hhd]
      rfl

/-! ## C5: additional-behavior construction -/

/-- C5 counterexample: the claim as stated is false. For a manifest with two
behaviors sharing the pattern `a` — the first bound to `s3`, the second
unnamed — the keyed behavior map binds `a` to the `default` origin with the
server cache policy, so the first behavior is not represented by its own
entry as the claim requires of every manifest behavior. -/
theorem claim_C5_counterexample :
    (additionalBehaviors
        [{ pattern := "a", origin := some "s3" }, { pattern := "a", origin := none }]
        ["s3", "default", "imageOptimizer"]
      = Except.ok
          [("a", behaviorSpecOf { pattern := "a", origin := some "s3" }),
           ("a", behaviorSpecOf { pattern := "a", origin := none })])
    ∧ ¬ (∀ b ∈ ([{ pattern := "a", origin := some "s3" },
          { pattern := "a", origin := none }] : List Behavior),
          b.pattern ≠ "*" →
            objGet
              [("a", behaviorSpecOf { pattern := "a", origin := some "s3" }),
               ("a", behaviorSpecOf { pattern := "a", origin := none })]
              b.pattern = some (behaviorSpecOf b)) := by
  constructor
  · decide
  · decide

/-- C5 (amended): for every manifest whose non-`*` behavior patterns are
distinct, the additional-behavior map (when resolution succeeds) contains
exactly the non-`*` manifest behaviors, each keyed by its pattern and bound
to its resolved origin — the named origin, or `default` when the behavior
declares no origin name (or the empty one) — with the static cache policy
used if and only if the declared origin name is `s3`, the origin-request
policy attached otherwise, and the request-rewrite function attached to
every behavior; for the example behavior list the map has exactly the two
non-`*` entries. -/
theorem claim_C5_additional_behaviors :
    (∀ (behaviors : List Behavior) (originKeys : List String)
        (m : List (String × BehaviorSpec)),
        additionalBehaviors behaviors originKeys = Except.ok m →
          m = (behaviors.filter (fun b => b.pattern != "*")).map
            (fun b => (b.pattern, behaviorSpecOf b)))
    ∧ (∀ (behaviors : List Behavior) (originKeys : List String)
        (m : List (String × BehaviorSpec)) (b : Behavior),
        additionalBehaviors behaviors originKeys = Except.ok m →
        (((behaviors.filter (fun b => b.pattern != "*")).map
          (fun b => b.pattern)).Nodup) →
        b ∈ behaviors → b.pattern ≠ "*" →
          objGet m b.pattern = some (behaviorSpecOf b))
    ∧ (∀ b : Behavior, (behaviorSpecOf b).originKey = resolveOriginKey b.origin)
    ∧ (∀ b : Behavior,
        (behaviorSpecOf b).usesStaticCachePolicy = true ↔ b.origin = some "s3")
    ∧ (∀ b : Behavior, (behaviorSpecOf b).hasRewriteFunction = true)
    ∧ (additionalBehaviors out0.behaviors ["s3", "default", "imageOptimizer"]
        = Except.ok
            [("_next/image*",
              behaviorSpecOf { pattern := "_next/image*", origin := some "imageOptimizer" }),
             ("_next/static/*",
              behaviorSpecOf { pattern := "_next/static/*", origin := some "s3" })]) := by
  have hpart1 : ∀ (behaviors : List Behavior) (originKeys : List String)
      (m : List (String × BehaviorSpec)),
      additionalBehaviors behaviors originKeys = Except.ok m →
        m = (behaviors.filter (fun b => b.pattern != "*")).map
          (fun b => (b.pattern, behaviorSpecOf b)) := by
    intro behaviors originKeys m hm
    by_cases hall : ∀ b ∈ behaviors.filter (fun b => b.pattern != "*"),
        resolveOriginKey b.origin ∈ originKeys
    · rw [additionalBehaviors, foldlM_behaviorStep_ok originKeys _ [] hall] at hm
      simp only [List.nil_append, Except.ok.injEq] at hm
      exact hm.symm
    · push_neg at hall
      rcases hall with ⟨b, hb, hbad⟩
      rcases foldlM_behaviorStep_error originKeys
        (behaviors.filter (fun b => b.pattern != "*")) [] ⟨b, hb, hbad⟩
        with ⟨msg, hmsg⟩
      rw [additionalBehaviors, hmsg] at hm
      cases hm
  refine ⟨hpart1, ?_, ?_, ?_, ?_, ?_⟩
  · intro behaviors originKeys m b hm hnd hb hp
    have hmem : b ∈ behaviors.filter (fun b => b.pattern != "*") :=
      List.mem_filter.mpr ⟨hb, by simp [hp]⟩
    have hm2 := hpart1 behaviors originKeys m hm
    subst hm2
    apply objGet_eq_some_of_nodup
    · have hcomp : ((behaviors.filter (fun b => b.pattern != "*")).map
          (fun b => (b.pattern, behaviorSpecOf b))).map Prod.fst
          = (behaviors.filter (fun b => b.pattern != "*")).map
            (fun b => b.pattern) := by
        rw [List.map_map]
        rfl
      rw [hcomp]
      exact hnd
    · exact List.mem_map.mpr ⟨b, hmem, rfl⟩
  · intro b
    rfl
  · intro b
    simp [behaviorSpecOf]
  · intro b
    rfl
  · decide

/-- C5 witness: the per-behavior lookup evaluated on the example manifest. -/
theorem claim_C5_additional_behaviors_witness :
    objGet
        [("_next/image*",
          behaviorSpecOf { pattern := "_next/image*", origin := some "imageOptimizer" }),
         ("_next/static/*",
          behaviorSpecOf { pattern := "_next/static/*", origin := some "s3" })]
        "_next/static/*"
      = some (behaviorSpecOf { pattern := "_next/static/*", origin := some "s3" }) :=
  claim_C5_additional_behaviors.2.1 out0.behaviors
    ["s3", "default", "imageOptimizer"] _
    { pattern := "_next/static/*", origin := some "s3" }
    (by decide) (by decide) (by decide) (by decide)

/-! ## C6: unknown-origin failure -/

/-- C6 counterexample: the claim as stated is false. A behavior whose origin
field names the empty string — a key absent from the resolved origin map —
does not make construction fail: the JavaScript truthiness test treats the
empty string like an absent origin, so the behavior silently falls back to
the `default` origin. -/
theorem claim_C6_counterexample :
    (¬ "" ∈ (createOrigins ctx0 ".open-next" none none
        outEmptyOriginName).origins.map Prod.fst)
    ∧ (∃ s, construct ctx0 props0 outEmptyOriginName = Except.ok s)
    ∧ additionalBehaviors outEmptyOriginName.behaviors
        ((createOrigins ctx0 ".open-next" none none
          outEmptyOriginName).origins.map Prod.fst)
      = Except.ok
          [("p", { originKey := "default", usesStaticCachePolicy := false,
                   hasOriginRequestPolicy := true, hasRewriteFunction := true })] := by
  refine ⟨by decide, ⟨_, rfl⟩, by decide⟩

/-- C6 (amended): a behavior (other than `*`) whose origin field names a
nonempty key absent from the resolved origin map makes construction fail
with a hard error whenever a distribution is created; a behavior declaring
no origin name (or the empty one) instead resolves to the `default` origin
and registers without error. -/
theorem claim_C6_unknown_origin :
    (∀ (ctx : CloudContext) (props : NextjsSiteProps) (out : OpenNextOutput)
        (b : Behavior) (s : String),
        b ∈ out.behaviors → b.pattern ≠ "*" → b.origin = some s → s ≠ "" →
        ¬ s ∈ (createOrigins ctx (props.openNextPath.getD ".open-next")
            props.logGroup props.defaultFunctionProps out).origins.map Prod.fst →
        props.createDistribution ≠ some false →
          ∃ e, construct ctx props out = Except.error e)
    ∧ resolveOriginKey none = "default"
    ∧ resolveOriginKey (some "") = "default"
    ∧ (∀ (pat : String) (originKeys : List String), "default" ∈ originKeys →
        pat ≠ "*" →
          additionalBehaviors [{ pattern := pat, origin := none }] originKeys
            = Except.ok
                [(pat, behaviorSpecOf { pattern := pat, origin := none })]) := by
  refine ⟨?_, rfl, rfl, ?_⟩
  · intro ctx props out b s hb hp ho hs habs hcd
    have h1' : (props.createDistribution = some false) = False := eq_false hcd
    by_cases c2 : missingCertAndZone props = true
    · refine ⟨⟨customDomainMissingCertMessage, []⟩, ?_⟩
      unfold construct
      rw [if_neg (by rw [h1']; exact fun hc => hc.1), if_pos c2]
    · have c2' : missingCertAndZone props = false := by
        rwa [Bool.not_eq_true] at c2
      have hkey : resolveOriginKey b.origin = s := by
        rw [ho]
        simp [resolveOriginKey, hs]
      have hmem : b ∈ out.behaviors.filter (fun b => b.pattern != "*") :=
        List.mem_filter.mpr ⟨hb, by simp [hp]⟩
      rcases foldlM_behaviorStep_error
          ((createOrigins ctx (props.openNextPath.getD ".open-next")
            props.logGroup props.defaultFunctionProps out).origins.map Prod.fst)
          (out.behaviors.filter (fun b => b.pattern != "*")) []
          ⟨b, hmem, by rw [hkey]; exact habs⟩
        with ⟨msg, hmsg⟩
      have hmsg2 : additionalBehaviors out.behaviors
          ((createOrigins ctx (props.openNextPath.getD ".open-next")
            props.logGroup props.defaultFunctionProps out).origins.map Prod.fst)
          = Except.error msg := hmsg
      have hdef : ("default" ∈ (createOrigins ctx
          (props.openNextPath.getD ".open-next") props.logGroup
          props.defaultFunctionProps out).origins.map Prod.fst) = True := by
        rw [createOrigins_keys]
        simp
      rcases hres : construct ctx props out with e | st
      · exact ⟨e, rfl⟩
      · simp only [construct, h1', false_and, if_false, c2', Bool.false_eq_true,
          ne_eq, not_false_eq_true, ite_true, hdef, if_true, hmsg2] at hres
        exact Except.noConfusion hres
  · intro pat originKeys hdef hp
    have hfilter : ([{ pattern := pat, origin := none }] : List Behavior).filter
        (fun b => b.pattern != "*") = [{ pattern := pat, origin := none }] := by
      simp [hp]
    rw [additionalBehaviors, hfilter,
      foldlM_behaviorStep_ok originKeys [{ pattern := pat, origin := none }] []
        (by intro x hx
            rcases List.mem_cons.mp hx with heq | hnil
            · rw [heq]
              exact hdef
            · exact absurd hnil (List.not_mem_nil x))]
    rfl

/-- C6 witness: construction over the `missing`-origin manifest fails, and
an unnamed behavior registers against the default origin. -/
theorem claim_C6_unknown_origin_witness :
    (∃ e, construct ctx0 props0 outMissingOrigin = Except.error e)
    ∧ additionalBehaviors [{ pattern := "docs/*", origin := none }]
        ["s3", "default", "imageOptimizer"]
      = Except.ok
          [("docs/*", behaviorSpecOf { pattern := "docs/*", origin := none })] := by
  constructor
  · exact claim_C6_unknown_origin.1 ctx0 props0 outMissingOrigin
      { pattern := "bad/*", origin := some "missing" } "missing"
      (by decide) (by decide) rfl (by decide) (by decide) (by decide)
  · exact claim_C6_unknown_origin.2.2.2 "docs/*" ["s3", "default", "imageOptimizer"]
      (by decide) (by decide)

/-! ## C8: per-origin sizing overrides -/

/-- C8: evaluation at the failing input. With the override bag `sizingBag0`
(`memorySize: 2048`) and a manifest declaring the extra compute origin
`api`, only the default server function receives the override; the
`imageOptimizer` function and the `api` function are created with the fixed
default of 1024 MB, because `createOrigins` passes `defaultFunctionProps`
only to the `default` origin and `createImageOptimizerOrigin` takes no
override bag at all — contradicting the `defaultFunctionProps` doc comment
("Default props to apply to all Lambda functions created by this
construct"). -/
theorem claim_C8_sizing_override_divergence :
    ((createOrigins ctx0 ".open-next" none (some sizingBag0)
        outWithApi).defaultFn.memorySize = 2048)
    ∧ ((createImageOptimizerOrigin ctx0 ".open-next" none
        imageOrigin0).1.memorySize = 1024)
    ∧ ((createFunctionOrigin ctx0 ".open-next" none "api" apiOrigin0
        (some "Api") none).1.memorySize = 1024)
    ∧ (objGet (createOrigins ctx0 ".open-next" none (some sizingBag0)
          outWithApi).origins "imageOptimizer"
        = some (OriginDesc.functionUrlWithOAC "ImageOptimizer"
            (createImageOptimizerOrigin ctx0 ".open-next" none imageOrigin0).1))
    ∧ (objGet (createOrigins ctx0 ".open-next" none (some sizingBag0)
          outWithApi).origins "api"
        = some (OriginDesc.httpFunction (some "Api")
            (createFunctionOrigin ctx0 ".open-next" none "api" apiOrigin0
              (some "Api") none).1)) := by
  refine ⟨rfl, rfl, rfl, ?_, ?_⟩
  · decide
  · decide

/-! ## Decimal-representation lemmas (for the idempotency key) -/

theorem toDigitsCore_append (b : Nat) :
    ∀ (f n : Nat) (l : List Char),
      Nat.toDigitsCore b f n l = Nat.toDigitsCore b f n [] ++ l := by
  intro f
  induction f with
  | zero =>
    intro n l
    rfl
  | succ f ih =>
    intro n l
    simp only [Nat.toDigitsCore]
    by_cases h : n / b = 0
    · simp [h]
    · simp only [h, if_false]
      rw [ih (n / b) (Nat.digitChar (n % b) :: l),
        ih (n / b) [Nat.digitChar (n % b)]]
      simp

theorem repChars_lt (n : Nat) (h : n < 10) : repChars n = [Nat.digitChar n] := by
  rw [repChars]
  rw [dif_pos h]

theorem repChars_ge (n : Nat) (h : ¬ n < 10) :
    repChars n = repChars (n / 10) ++ [Nat.digitChar (n % 10)] := by
  rw [repChars]
  rw [dif_neg h]

theorem toDigitsCore_eq_repChars :
    ∀ (f n : Nat), n < f → Nat.toDigitsCore 10 f n [] = repChars n := by
  intro f
  induction f with
  | zero =>
    intro n h
    exact absurd h (Nat.not_lt_zero n)
  | succ f ih =>
    intro n hn
    simp only [Nat.toDigitsCore]
    by_cases h : n / 10 = 0
    · have h10 : n < 10 := by
        rcases Nat.lt_or_ge n 10 with h1 | h1
        · exact h1
        · exfalso
          have := Nat.div_le_div_right (c := 10) h1
          rw [h] at this
          simp at this
      simp only [h, if_true]
      rw [repChars_lt n h10, Nat.mod_eq_of_lt h10]
    · have h10 : ¬ n < 10 := fun hc => h (Nat.div_eq_of_lt hc)
      have hpos : 0 < n := by omega
      have hdiv : n / 10 < n := Nat.div_lt_self hpos (by norm_num)
      simp only [h, if_false]
      rw [toDigitsCore_append, ih (n / 10) (by omega), repChars_ge n h10]

theorem repr_eq_repChars (n : Nat) : Nat.repr n = (repChars n).asString := by
  show (Nat.toDigits 10 n).asString = _
  rw [Nat.toDigits, toDigitsCore_eq_repChars (n + 1) n (Nat.lt_succ_self n)]

theorem repChars_ne_nil (n : Nat) : repChars n ≠ [] := by
  rw [repChars]
  by_cases h : n < 10
  · rw [dif_pos h]
    simp
  · rw [dif_neg h]
    simp

theorem digitChar_injOn :
    ∀ m, m < 10 → ∀ n, n < 10 → Nat.digitChar m = Nat.digitChar n → m = n := by
  decide

theorem repChars_inj : ∀ m n : Nat, repChars m = repChars n → m = n := by
  intro m
  induction m using Nat.strong_induction_on with
  | _ m ih =>
    intro n h
    by_cases hm : m < 10
    · by_cases hn : n < 10
      · rw [repChars_lt m hm, repChars_lt n hn] at h
        exact digitChar_injOn m hm n hn (List.cons.inj h).1
      · exfalso
        rw [repChars_lt m hm, repChars_ge n hn] at h
        have hlen := congrArg List.length h
        simp only [List.length_cons, List.length_nil, List.length_append] at hlen
        have : repChars (n / 10) = [] := by
          apply List.eq_nil_of_length_eq_zero
          omega
        exact repChars_ne_nil (n / 10) this
    · by_cases hn : n < 10
      · exfalso
        rw [repChars_ge m hm, repChars_lt n hn] at h
        have hlen := congrArg List.length h
        simp only [List.length_cons, List.length_nil, List.length_append] at hlen
        have : repChars (m / 10) = [] := by
          apply List.eq_nil_of_length_eq_zero
          omega
        exact repChars_ne_nil (m / 10) this
      · rw [repChars_ge m hm, repChars_ge n hn] at h
        rcases List.append_inj' h (by simp) with ⟨hpre, hsuf⟩
        have hmpos : 0 < m := by omega
        have hdiv : m / 10 = n / 10 :=
          ih (m / 10) (Nat.div_lt_self hmpos (by norm_num)) (n / 10) hpre
        have hmod : m % 10 = n % 10 :=
          digitChar_injOn _ (Nat.mod_lt m (by norm_num)) _
            (Nat.mod_lt n (by norm_num)) (List.cons.inj hsuf).1
        omega

theorem natRepr_data_inj :
    ∀ m n : Nat, (Nat.repr m).data = (Nat.repr n).data → m = n := by
  intro m n h
  rw [repr_eq_repChars, repr_eq_repChars] at h
  exact repChars_inj m n h

theorem intRepr_pos_data_inj :
    ∀ a b : Int, 0 < a → 0 < b → (Int.repr a).data = (Int.repr b).data → a = b := by
  intro a b ha hb h
  cases a with
  | ofNat m =>
    cases b with
    | ofNat n =>
      have hmn : m = n := natRepr_data_inj m n h
      rw [hmn]
    | negSucc n =>
      exfalso
      have := Int.negSucc_lt_zero n
      omega
  | negSucc m =>
    exfalso
    have := Int.negSucc_lt_zero m
    omega

theorem digitChar_isDigit : ∀ k, k < 10 → (Nat.digitChar k).isDigit = true := by
  decide

theorem repChars_isDigit : ∀ n, ∀ c ∈ repChars n, c.isDigit = true := by
  intro n
  induction n using Nat.strong_induction_on with
  | _ n ih =>
    intro c hc
    by_cases h : n < 10
    · rw [repChars_lt n h] at hc
      simp only [List.mem_singleton] at hc
      rw [hc]
      exact digitChar_isDigit n h
    · rw [repChars_ge n h] at hc
      rcases List.mem_append.mp hc with h1 | h1
      · have hpos : 0 < n := by omega
        exact ih (n / 10) (Nat.div_lt_self hpos (by norm_num)) c h1
      · simp only [List.mem_singleton] at h1
        rw [h1]
        exact digitChar_isDigit _ (Nat.mod_lt n (by norm_num))

theorem natRepr_isDigit : ∀ n : Nat, ∀ c ∈ (Nat.repr n).data, c.isDigit = true := by
  intro n c hc
  rw [repr_eq_repChars] at hc
  exact repChars_isDigit n c hc

theorem intRepr_pos_isDigit :
    ∀ a : Int, 0 < a → ∀ c ∈ (Int.repr a).data, c.isDigit = true := by
  intro a ha c hc
  cases a with
  | ofNat m => exact natRepr_isDigit m c hc
  | negSucc m =>
    exfalso
    have := Int.negSucc_lt_zero m
    omega

theorem digit_block_inj :
    ∀ (A₁ A₂ r₁ r₂ : List Char),
      (∀ c ∈ A₁, c.isDigit = true) → (∀ c ∈ A₂, c.isDigit = true) →
      (∀ c, r₁.head? = some c → c.isDigit = false) →
      (∀ c, r₂.head? = some c → c.isDigit = false) →
      A₁ ++ r₁ = A₂ ++ r₂ → A₁ = A₂ ∧ r₁ = r₂ := by
  intro A₁
  induction A₁ with
  | nil =>
    intro A₂ r₁ r₂ _ hA₂ hr₁ _ h
    cases A₂ with
    | nil => exact ⟨rfl, h⟩
    | cons a A₂' =>
      exfalso
      simp only [List.nil_append, List.cons_append] at h
      have hd : r₁.head? = some a := by rw [h]; rfl
      have h1 := hr₁ a hd
      have h2 := hA₂ a (List.mem_cons_self a A₂')
      rw [h1] at h2
      exact absurd h2 (by decide)
  | cons a A₁' ih =>
    intro A₂ r₁ r₂ hA₁ hA₂ hr₁ hr₂ h
    cases A₂ with
    | nil =>
      exfalso
      simp only [List.cons_append, List.nil_append] at h
      have hd : r₂.head? = some a := by rw [← h]; rfl
      have h1 := hr₂ a hd
      have h2 := hA₁ a (List.mem_cons_self a A₁')
      rw [h1] at h2
      exact absurd h2 (by decide)
    | cons b A₂' =>
      simp only [List.cons_append, List.cons.injEq] at h
      rcases h with ⟨hab, htail⟩
      rcases ih A₂' r₁ r₂ (fun c hc => hA₁ c (List.mem_cons_of_mem a hc))
        (fun c hc => hA₂ c (List.mem_cons_of_mem b hc)) hr₁ hr₂ htail
        with ⟨h1, h2⟩
      exact ⟨by rw [hab, h1], h2⟩

theorem prewarmTail_head_nondigit (p : Option Bool) :
    ∀ ch, ((prewarmEnabledField p).data ++ ("\x7d").data).head? = some ch →
      ch.isDigit = false := by
  cases p with
  | none =>
    intro ch hch
    have h0 : ((prewarmEnabledField none).data ++ ("\x7d").data).head?
        = some '\x7d' := rfl
    rw [h0] at hch
    rw [← Option.some.inj hch]
    decide
  | some b =>
    cases b with
    | true =>
      intro ch hch
      have h0 : ((prewarmEnabledField (some true)).data ++ ("\x7d").data).head?
          = some ',' := rfl
      rw [h0] at hch
      rw [← Option.some.inj hch]
      decide
    | false =>
      intro ch hch
      have h0 : ((prewarmEnabledField (some false)).data ++ ("\x7d").data).head?
          = some ',' := rfl
      rw [h0] at hch
      rw [← Option.some.inj hch]
      decide

theorem prewarmEnabledField_data_inj :
    ∀ p₁ p₂ : Option Bool,
      (prewarmEnabledField p₁).data = (prewarmEnabledField p₂).data → p₁ = p₂ := by
  decide

theorem prewarmConfigJson_inj :
    ∀ (c₁ c₂ : Int) (i₁ i₂ : Nat) (p₁ p₂ : Option Bool),
      0 < c₁ → 0 < c₂ →
      prewarmConfigJson c₁ i₁ p₁ = prewarmConfigJson c₂ i₂ p₂ →
      c₁ = c₂ ∧ i₁ = i₂ ∧ p₁ = p₂ := by
  intro c₁ c₂ i₁ i₂ p₁ p₂ hc₁ hc₂ h
  have hdata := congrArg String.data h
  simp only [prewarmConfigJson, String.data_append, List.append_assoc] at hdata
  have h1 := List.append_cancel_left hdata
  have hQhead : ∀ (X : List Char) (ch : Char),
      ((",\"interval\":").data ++ X).head? = some ch → ch.isDigit = false := by
    intro X ch hch
    have h0 : ((",\"interval\":").data ++ X).head? = some ',' := rfl
    rw [h0] at hch
    rw [← Option.some.inj hch]
    decide
  rcases digit_block_inj (Int.repr c₁).data (Int.repr c₂).data _ _
      (intRepr_pos_isDigit c₁ hc₁) (intRepr_pos_isDigit c₂ hc₂)
      (hQhead _) (hQhead _) h1 with ⟨hcdata, hrest⟩
  have hcc : c₁ = c₂ := intRepr_pos_data_inj c₁ c₂ hc₁ hc₂ hcdata
  have h2 := List.append_cancel_left hrest
  rcases digit_block_inj (Nat.repr i₁).data (Nat.repr i₂).data _ _
      (natRepr_isDigit i₁) (natRepr_isDigit i₂)
      (prewarmTail_head_nondigit p₁) (prewarmTail_head_nondigit p₂) h2
    with ⟨hidata, hfdata⟩
  have hii : i₁ = i₂ := natRepr_data_inj i₁ i₂ hidata
  have hpp : p₁ = p₂ :=
    prewarmEnabledField_data_inj p₁ p₂ (List.append_cancel_right hfdata)
  exact ⟨hcc, hii, hpp⟩

/-! ## C4: pre-warm idempotency key -/

/-- C4 counterexample: the claim as stated is false. Two constructions that
differ only in `warm` — omitted versus the explicit `1` — both yield a
pre-warm resource, yet compute the identical idempotency key, because
`warm ?? 1` resolves both to concurrency 1 and the hash input coincides;
the key equality holds for any digest function, shown here with the
`hashStub` stand-in over the identical serialized input. -/
theorem claim_C4_counterexample :
    (WarmSetting.omitted ≠ WarmSetting.concurrency 1)
    ∧ (resolvedWarmConcurrency WarmSetting.omitted
        = resolvedWarmConcurrency (WarmSetting.concurrency 1))
    ∧ ((prewarmKey hashStub WarmSetting.omitted none none
        (some warmerBase0)).isSome = true)
    ∧ (prewarmKey hashStub WarmSetting.omitted none none (some warmerBase0)
        = prewarmKey hashStub (WarmSetting.concurrency 1) none none
            (some warmerBase0)) := by
  refine ⟨by decide, rfl, ?_, ?_⟩
  · decide
  · decide

/-- C4 (amended): the idempotency key is a function of the resolved
configuration only. Constructions with identical `{warm, warmerInterval,
prewarmOnDeploy}` compute identical keys regardless of all other
configuration (the warmer bundle payload in particular); the serialized
hash input `{concurrency, interval, prewarmEnabled}` is injective in the
resolved triple (for the positive concurrencies that reach the key
computation), so any change to the resolved triple changes the hash input —
and hence the truncated-SHA-256 key, absent a digest collision between the
two inputs. `warm` and `warmerInterval` enter through their defaults
(omitted resolves to 1 and to 5 minutes respectively), while
`prewarmEnabled` is the raw `prewarmOnDeploy` value. -/
theorem claim_C4_idempotency_key :
    (∀ (h : String → String) (w : WarmSetting) (i : Option Nat)
        (p : Option Bool) (b₁ b₂ : Option BaseFunction),
        b₁.isSome = b₂.isSome →
          prewarmKey h w i p b₁ = prewarmKey h w i p b₂)
    ∧ (∀ (c₁ c₂ : Int) (i₁ i₂ : Nat) (p₁ p₂ : Option Bool), 0 < c₁ → 0 < c₂ →
        (prewarmConfigJson c₁ i₁ p₁ = prewarmConfigJson c₂ i₂ p₂ ↔
          (c₁ = c₂ ∧ i₁ = i₂ ∧ p₁ = p₂)))
    ∧ (∀ (h : String → String) (c₁ c₂ : Int) (i₁ i₂ : Nat)
        (p₁ p₂ : Option Bool),
        prewarmConfigJson c₁ i₁ p₁ ≠ prewarmConfigJson c₂ i₂ p₂ →
        h (prewarmConfigJson c₁ i₁ p₁) ≠ h (prewarmConfigJson c₂ i₂ p₂) →
        (h (prewarmConfigJson c₁ i₁ p₁)).take 16
          ≠ (h (prewarmConfigJson c₂ i₂ p₂)).take 16 →
          prewarmConfigKey h c₁ i₁ p₁ ≠ prewarmConfigKey h c₂ i₂ p₂) := by
  refine ⟨?_, ?_, ?_⟩
  · intro h w i p b₁ b₂ hiso
    cases b₁ with
    | none =>
      cases b₂ with
      | none => rfl
      | some y => simp at hiso
    | some x =>
      cases b₂ with
      | none => simp at hiso
      | some y =>
        simp only [prewarmKey, createWarmer]
  · intro c₁ c₂ i₁ i₂ p₁ p₂ hc₁ hc₂
    constructor
    · exact prewarmConfigJson_inj c₁ c₂ i₁ i₂ p₁ p₂ hc₁ hc₂
    · rintro ⟨rfl, rfl, rfl⟩
      rfl
  · intro h c₁ c₂ i₁ i₂ p₁ p₂ _ _ htake
    exact htake

/-- C4 witness: key determinism and hash-input separation on concrete
configurations. -/
theorem claim_C4_idempotency_key_witness :
    (prewarmKey hashStub (WarmSetting.concurrency 2) (some 10) (some true)
        (some warmerBase0)
      = prewarmKey hashStub (WarmSetting.concurrency 2) (some 10) (some true)
          (some { handler := "other.handler", bundle := "other-warmer" }))
    ∧ prewarmConfigJson 2 5 none ≠ prewarmConfigJson 3 5 none
    ∧ prewarmConfigJson 2 5 none ≠ prewarmConfigJson 2 10 none
    ∧ prewarmConfigJson 2 5 none ≠ prewarmConfigJson 2 5 (some true) := by
  refine ⟨?_, ?_, ?_, ?_⟩
  · exact claim_C4_idempotency_key.1 hashStub (WarmSetting.concurrency 2)
      (some 10) (some true) (some warmerBase0)
      (some { handler := "other.handler", bundle := "other-warmer" }) rfl
  · intro hj
    have := (claim_C4_idempotency_key.2.1 2 3 5 5 none none (by norm_num)
      (by norm_num)).mp hj
    exact absurd this.1 (by norm_num)
  · intro hj
    have := (claim_C4_idempotency_key.2.1 2 2 5 10 none none (by norm_num)
      (by norm_num)).mp hj
    exact absurd this.2.1 (by norm_num)
  · intro hj
    have := (claim_C4_idempotency_key.2.1 2 2 5 5 none (some true) (by norm_num)
      (by norm_num)).mp hj
    exact absurd this.2.2 (by simp)
